/-
Verification of the MeetingMemory transcription watcher.

Shallow embedding of `src/tools/transcribe_watcher.py` (and the timestamp
parser shared with `src/tools/reprocess_transcripts.py`).  External effects
(filesystem, subprocesses, HTTP) are passed in explicitly as environment
values; the control flow of each Python function is translated directly.
-/
import Mathlib

namespace MeetingMemory

/-! ### File paths

The watcher manipulates three kinds of paths, all derived from the stem of
the source recording: the original `.wav` in the recordings directory, the
temporary premixed file `{tempdir}/{stem}_mixed.wav`, and the transcript
`{transcripts_dir}/{stem}.html`.  We keep them symbolic; distinctness of the
constructors reflects distinctness of the concrete path strings. -/

inductive FPath where
  | original (stem : String)
  | mixed (stem : String)
  | transcript (stem : String)
deriving DecidableEq

/-! ### Job states

The Python code carries no explicit state field; the spec's per-job state
machine `Queued → Processing → {Delivered, FailedLocal, FailedDelivery}` is
the abstraction of its control flow.  A job that completes with the webhook
disabled or unconfigured reaches the terminal processed state, which we
identify with `Delivered` (no delivery was required). -/

inductive JobState where
  | Queued
  | Processing
  | Delivered
  | FailedLocal
  | FailedDelivery
deriving DecidableEq

/-! ### Debounce coalescer — single-path timeline
(`AudioFileHandler.on_created` / `AudioFileHandler._add_to_queue`)

For one fixed path we track the pending timer (its scheduled fire time
`event time + D`) and the times at which jobs were enqueued.  Events are
processed in chronological order; a pending timer whose fire time has
passed fires (settles) before the next event is handled.  `fileOk` stands
for `file_path.exists() and file_path.stat().st_size > 0` at settle time. -/

structure DebounceState where
  pending : Option Nat
  enqueued : List Nat
deriving DecidableEq

/-- Settle a due timer: `_add_to_queue` removes the map entry and enqueues
the file when it still exists and is non-empty, else only warns. -/
def fireDue (fileOk : Bool) (t : Nat) (s : DebounceState) : DebounceState :=
  match s.pending with
  | some f =>
      if f ≤ t then
        { pending := none
          enqueued := s.enqueued ++ if fileOk then [f] else [] }
      else s
  | none => s

/-- `on_created` at time `t`: any due timer has already fired; the existing
timer for the path (if any) is cancelled and replaced by a fresh timer
scheduled at `t + D`.  The `Option` field makes "at most one live timer per
path" structural, exactly as the Python dict keyed by path does. -/
def stepEvent (D : Nat) (fileOk : Bool) (s : DebounceState) (t : Nat) : DebounceState :=
  let s1 := fireDue fileOk t s
  { s1 with pending := some (t + D) }

/-- After the last event, the remaining timer (if any) fires. -/
def settleFinal (fileOk : Bool) (s : DebounceState) : DebounceState :=
  match s.pending with
  | some f =>
      { pending := none
        enqueued := s.enqueued ++ if fileOk then [f] else [] }
  | none => s

/-- Run a chronological list of creation-notification times for one path
through the debounce coalescer. -/
def debounceRun (D : Nat) (fileOk : Bool) (events : List Nat) : DebounceState :=
  settleFinal fileOk (events.foldl (stepEvent D fileOk) { pending := none, enqueued := [] })

/-! ### Debounce coalescer — keyed pending map
(`AudioFileHandler.pending_files`, for the invariant about map entries) -/

structure HandlerState where
  pending : String → Option Nat
  queued : List String

/-- `AudioFileHandler._add_to_queue(file_path)`: first
`if file_path in self.pending_files: del self.pending_files[file_path]`,
then enqueue only when the file exists with positive size. -/
def addToQueue (s : HandlerState) (p : String) (fileExists : Bool) (fileSize : Nat) : HandlerState :=
  let s1 : HandlerState :=
    { s with pending := fun q => if q = p then none else s.pending q }
  if fileExists && decide (0 < fileSize) then
    { s1 with queued := s1.queued ++ [p] }
  else s1

/-- The tail of `AudioFileHandler.on_created` at time `t`: cancel any
existing timer for `p` and store a fresh timer firing at `t + D`. -/
def onCreatedTimer (D : Nat) (s : HandlerState) (p : String) (t : Nat) : HandlerState :=
  { s with pending := fun q => if q = p then some (t + D) else s.pending q }

/-! ### Filename timestamps
(the `started_at` block of `TranscribeWatcher._send_webhook`, identical in
logic to `parse_timestamp_from_filename` of `reprocess_transcripts.py`)

Local wall-clock time is modelled as a fixed UTC offset in minutes
(`tzOffsetMin`, e.g. `-300` for UTC-5); `astimezone(timezone.utc)` on a
naive datetime subtracts that offset.  Calendar arithmetic follows the
proleptic Gregorian calendar used by `datetime`. -/

structure LocalDT where
  year : Int
  month : Nat
  day : Nat
  hour : Nat
  minute : Nat
  second : Nat
deriving DecidableEq

/-- Split a character list at every occurrence of `c` (the behaviour of
Python `str.split(c)` on the single-character separators used here). -/
def splitOnChar (c : Char) : List Char → List (List Char)
  | [] => [[]]
  | x :: xs =>
    let r := splitOnChar c xs
    if x = c then [] :: r
    else
      match r with
      | [] => [[x]]
      | y :: ys => (x :: y) :: ys

/-- Python `int(...)` on the digit groups of a well-formed stem: a
non-empty all-digit string.  (Python `int` additionally strips whitespace
and accepts a sign; such stems are not of the documented
`YYYY-MM-DD_HH-MM-SS` shape and are immaterial to the claims.) -/
def parseDigits (l : List Char) : Option Nat :=
  if l ≠ [] ∧ l.all (fun c => c.isDigit) then
    some (l.foldl (fun acc c => 10 * acc + (c.toNat - 48)) 0)
  else none

def isLeap (y : Int) : Bool :=
  decide ((y % 4 = 0 ∧ y % 100 ≠ 0) ∨ y % 400 = 0)

def daysInMonth (y : Int) (m : Nat) : Nat :=
  match m with
  | 1 => 31
  | 2 => if isLeap y then 29 else 28
  | 3 => 31
  | 4 => 30
  | 5 => 31
  | 6 => 30
  | 7 => 31
  | 8 => 31
  | 9 => 30
  | 10 => 31
  | 11 => 30
  | 12 => 31
  | _ => 0

/-- The stem parser: `stem.split('_')` must give exactly two parts, each
`part.split('-')` exactly three, every piece must parse as an integer, and
the `datetime` constructor validates the ranges (`MINYEAR = 1`,
`MAXYEAR = 9999`); any violation raises `ValueError` in Python, i.e.
returns `none` here. -/
def parseStem (stem : String) : Option LocalDT :=
  match splitOnChar '_' stem.data with
  | [datePart, timePart] =>
    match splitOnChar '-' datePart, splitOnChar '-' timePart with
    | [ys, ms, ds], [hs, mins, ss] =>
      match parseDigits ys, parseDigits ms, parseDigits ds,
            parseDigits hs, parseDigits mins, parseDigits ss with
      | some y, some mo, some d, some h, some mi, some s =>
        if 1 ≤ y ∧ y ≤ 9999 ∧ 1 ≤ mo ∧ mo ≤ 12 ∧ 1 ≤ d ∧ d ≤ daysInMonth (y : Int) mo ∧
           h ≤ 23 ∧ mi ≤ 59 ∧ s ≤ 59 then
          some { year := (y : Int), month := mo, day := d, hour := h, minute := mi, second := s }
        else none
      | _, _, _, _, _, _ => none
    | _, _ => none
  | _ => none

/-- Days since 1970-01-01 of a proleptic-Gregorian civil date
(Hinnant's `days_from_civil`, with explicit floor division). -/
def daysFromCivil (y : Int) (m d : Nat) : Int :=
  let yA : Int := if m ≤ 2 then y - 1 else y
  let era : Int := Int.fdiv yA 400
  let yoe : Int := yA - era * 400
  let mp : Int := if m ≤ 2 then (m : Int) + 9 else (m : Int) - 3
  let doy : Int := Int.fdiv (153 * mp + 2) 5 + (d : Int) - 1
  let doe : Int := yoe * 365 + Int.fdiv yoe 4 - Int.fdiv yoe 100 + doy
  era * 146097 + doe - 719468

/-- Inverse of `daysFromCivil` (Hinnant's `civil_from_days`). -/
def civilFromDays (z0 : Int) : Int × Nat × Nat :=
  let z := z0 + 719468
  let era := Int.fdiv z 146097
  let doe := z - era * 146097
  let yoe := Int.fdiv (doe - Int.fdiv doe 1460 + Int.fdiv doe 36524 - Int.fdiv doe 146096) 365
  let y := yoe + era * 400
  let doy := doe - (365 * yoe + Int.fdiv yoe 4 - Int.fdiv yoe 100)
  let mp := Int.fdiv (5 * doy + 2) 153
  let d := (doy - Int.fdiv (153 * mp + 2) 5 + 1).toNat
  let m := (if mp < 10 then mp + 3 else mp - 9).toNat
  (if m ≤ 2 then y + 1 else y, m, d)

/-- Seconds since the Unix epoch of a wall-clock datetime. -/
def secondsFromCivil (dt : LocalDT) : Int :=
  daysFromCivil dt.year dt.month dt.day * 86400 +
    (dt.hour : Int) * 3600 + (dt.minute : Int) * 60 + (dt.second : Int)

/-- Datetime of a seconds-since-epoch instant. -/
def dtFromSeconds (t : Int) : LocalDT :=
  let days := Int.fdiv t 86400
  let sod := (t - days * 86400).toNat
  let c := civilFromDays days
  { year := c.1, month := c.2.1, day := c.2.2
    hour := sod / 3600, minute := sod % 3600 / 60, second := sod % 60 }

def digitChar (n : Nat) : Char :=
  match n with
  | 0 => '0' | 1 => '1' | 2 => '2' | 3 => '3' | 4 => '4'
  | 5 => '5' | 6 => '6' | 7 => '7' | 8 => '8' | _ => '9'

def pad2 (n : Nat) : List Char :=
  [digitChar (n / 10 % 10), digitChar (n % 10)]

def pad4 (y : Int) : List Char :=
  let n := y.toNat
  [digitChar (n / 1000 % 10), digitChar (n / 100 % 10), digitChar (n / 10 % 10), digitChar (n % 10)]

/-- `strftime("%Y-%m-%dT%H:%M:%SZ")`. -/
def formatTs (dt : LocalDT) : String :=
  String.mk (pad4 dt.year ++ ['-'] ++ pad2 dt.month ++ ['-'] ++ pad2 dt.day ++ ['T'] ++
    pad2 dt.hour ++ [':'] ++ pad2 dt.minute ++ [':'] ++ pad2 dt.second ++ ['Z'])

/-- `local_dt.astimezone(timezone.utc)`: interpret the naive datetime in
the local zone (offset `tzOffsetMin` minutes east of UTC) and convert. -/
def localToUtc (dt : LocalDT) (tzOffsetMin : Int) : LocalDT :=
  dtFromSeconds (secondsFromCivil dt - tzOffsetMin * 60)

/-- The `started_at` computation of `_send_webhook` (and of
`parse_timestamp_from_filename`): parse the stem, convert to UTC and
format; on parse failure fall back to the current UTC time.  The boolean
records whether the fallback warning was logged.  Totality of this
definition is the model of "never raises": in Python both failure modes
(`ValueError`, `IndexError`) are caught inside the function. -/
def startedAt (stem : String) (tzOffsetMin : Int) (nowUtcSec : Int) : String × Bool :=
  match parseStem stem with
  | some dt => (formatTs (localToUtc dt tzOffsetMin), false)
  | none => (formatTs (dtFromSeconds nowUtcSec), true)

/-! ### Audio duration heuristic (`_send_webhook`, byte-size branch) -/

/-- Python 3 `round` on the exact rational `n / d` (with `0 < d`):
round half to even. -/
def pyRoundFrac (n : Int) (d : Int) : Int :=
  let f := Int.fdiv n d
  let r := n - f * d
  if 2 * r < d then f
  else if d < 2 * r then f + 1
  else if f % 2 = 0 then f else f + 1

/-- `round(max(0, (audio_size - 44) / 32000))`.  The `max` is applied to
the numerator, which is equivalent since the denominator `32000` is
positive. -/
def audioDurationSeconds (size : Nat) : Int :=
  pyRoundFrac (max 0 ((size : Int) - 44)) 32000

/-! ### Premix stage (`TranscribeWatcher._premix_audio`)

`probe` is the parsed output of the `ffprobe` subprocess (`none` when the
probe raised, including unparsable output); `mixExit` / `mixedExists` are
the `ffmpeg` mix invocation's exit code and whether its output file exists.
IEEE-754 weights `1.0 / channels` are modelled as exact rationals. -/

structure MixCmd where
  input : FPath
  weights : List ℚ
  sampleRate : Nat
  codec : String
  outPath : FPath

structure PremixOut where
  outPath : FPath
  cmd : Option MixCmd
  warned : Bool

def premixAudio (stem : String) (probe : Option Int) (mixExit : Int) (mixedExists : Bool) :
    PremixOut :=
  -- `channels = int(result.stdout.strip())`, on exception warn and assume 2
  let channels : Int := probe.getD 2
  let probeWarned : Bool := probe.isNone
  if channels ≤ 2 then
    -- standard stereo or mono: no pre-processing, return the original path
    { outPath := .original stem, cmd := none, warned := probeWarned }
  else
    let c : Nat := channels.toNat
    -- `weight = 1.0 / channels`;
    -- `mix_filter = "pan=mono|c0=" + "+".join(f"{weight}*c{i}" for i in range(channels))`
    let cmd : MixCmd :=
      { input := .original stem
        weights := (List.range c).map (fun _ => (1 : ℚ) / (c : ℚ))
        sampleRate := 48000        -- `'-ar', '48000'` (hard-coded)
        codec := "pcm_s16le"       -- `'-c:a', 'pcm_s16le'`
        outPath := .mixed stem }   -- `temp_dir / f"{stem}_mixed.wav"`
    if mixExit = 0 ∧ mixedExists then
      { outPath := .mixed stem, cmd := some cmd, warned := probeWarned }
    else
      -- `"Pre-mix failed, using original"` (warning) and fall back
      { outPath := .original stem, cmd := some cmd, warned := true }

/-! ### Webhook delivery (`TranscribeWatcher._send_webhook`) -/

structure WebhookEnv where
  enabled : Bool                     -- `config['webhook']['enabled']`
  url : String                       -- `config['webhook']['url']`
  readResult : Except String String  -- reading the transcript HTML
  fileSize : Nat                     -- `audio_file.stat().st_size`
  stem : String                      -- `audio_file.stem`
  tzOffsetMin : Int                  -- local zone offset, minutes east of UTC
  nowUtcSec : Int                    -- `datetime.now(timezone.utc)`
  http : Except String Nat           -- transport exception, or final HTTP status

structure Payload where
  transcript_path : FPath
  transcript_html : String
  started_at : String
  audio_duration_seconds : Int

structure DeliveryResult where
  state : JobState
  errorLogs : List String
  httpCalls : Nat
  payload : Option Payload

/-- `requests.Response.raise_for_status` raises `HTTPError` exactly for
status codes in `[400, 600)`; it does not raise for 1xx/3xx responses. -/
def raisesForStatus (code : Nat) : Bool :=
  decide (400 ≤ code ∧ code < 600)

/-- `_send_webhook`: skip silently when no URL is configured; otherwise
read the transcript, build the payload, POST once and `raise_for_status`.
`requests.exceptions.RequestException` (transport errors and `HTTPError`)
and any other exception while preparing the payload are caught and logged
at error level; there is no retry (at most one HTTP call). -/
def sendWebhook (w : WebhookEnv) : DeliveryResult :=
  if w.url = "" then
    -- `"Webhook URL not configured, skipping notification"` (debug); the
    -- job still completes — terminal processed state, no network call.
    { state := .Delivered, errorLogs := [], httpCalls := 0, payload := none }
  else
    match w.readResult with
    | .error e =>
        -- caught by `except Exception`: `"Error preparing webhook"`
        { state := .FailedDelivery
          errorLogs := ["Error preparing webhook: " ++ e]
          httpCalls := 0, payload := none }
    | .ok html =>
        let payload : Payload :=
          { transcript_path := .transcript w.stem
            transcript_html := html
            started_at := (startedAt w.stem w.tzOffsetMin w.nowUtcSec).1
            audio_duration_seconds := audioDurationSeconds w.fileSize }
        match w.http with
        | .error e =>
            -- `except requests.exceptions.RequestException`
            { state := .FailedDelivery
              errorLogs := ["Webhook request failed: " ++ e]
              httpCalls := 1, payload := some payload }
        | .ok code =>
            if raisesForStatus code then
              { state := .FailedDelivery
                errorLogs := ["Webhook request failed: HTTP " ++ toString code]
                httpCalls := 1, payload := some payload }
            else
              -- `"Webhook sent successfully"`
              { state := .Delivered, errorLogs := [], httpCalls := 1, payload := some payload }

/-! ### Transcription invoker and pipeline loop
(`TranscribeWatcher._transcribe_file` / `TranscribeWatcher._process_queue`) -/

/-- Result of `subprocess.run` on the noScribe command: completion with an
exit code and captured streams, or a launch failure (`except Exception`). -/
inductive RunResult where
  | completed (exitCode : Int) (stdout stderr : String)
  | launchError (msg : String)

structure JobEnv where
  stem : String
  probe : Option Int          -- premix: ffprobe outcome
  mixExit : Int               -- premix: ffmpeg exit code
  mixedExists : Bool          -- premix: mixed file produced
  run : RunResult             -- noScribe subprocess outcome
  tempExistsAtCleanup : Bool  -- `processed_audio.exists()` at cleanup time
  unlinkOk : Bool             -- `processed_audio.unlink()` did not raise
  webhook : WebhookEnv

structure Outcome where
  state : JobState
  errorLogs : List String
  httpCalls : Nat
  webhookAttempted : Bool     -- whether `_send_webhook` was invoked
  tempCleaned : Bool          -- whether the temporary mixed file was deleted
  premixOut : PremixOut

/-- `_transcribe_file`, translated clause by clause.  Note the two early
`return`s on transcription failure occur BEFORE the temp-file cleanup
block, so `tempCleaned` is `false` on those paths.  The noScribe command
construction (language, speaker detection, timestamps, pause, model flags)
does not influence any control flow modelled here and is elided. -/
def transcribeFile (env : JobEnv) : Outcome :=
  let pm := premixAudio env.stem env.probe env.mixExit env.mixedExists
  match env.run with
  | .launchError msg =>
      -- `except Exception as e: logger.error(f"Failed to run noScribe: {e}"); return`
      { state := .FailedLocal
        errorLogs := ["Failed to run noScribe: " ++ msg]
        httpCalls := 0, webhookAttempted := false, tempCleaned := false, premixOut := pm }
  | .completed code out err =>
      if code ≠ 0 then
        -- `if result.returncode != 0: ...; return`
        { state := .FailedLocal
          errorLogs := ["noScribe failed with exit code " ++ toString code,
                        "stdout: " ++ out, "stderr: " ++ err]
          httpCalls := 0, webhookAttempted := false, tempCleaned := false, premixOut := pm }
      else
        -- `if processed_audio != audio_file and processed_audio.exists(): unlink`
        let cleaned : Bool :=
          if pm.outPath ≠ FPath.original env.stem ∧ env.tempExistsAtCleanup then
            env.unlinkOk
          else false
        -- `if self.config['webhook']['enabled']: self._send_webhook(...)`
        if env.webhook.enabled then
          let d := sendWebhook env.webhook
          { state := d.state, errorLogs := d.errorLogs, httpCalls := d.httpCalls
            webhookAttempted := true, tempCleaned := cleaned, premixOut := pm }
        else
          { state := .Delivered, errorLogs := [], httpCalls := 0
            webhookAttempted := false, tempCleaned := cleaned, premixOut := pm }

/-- `_process_queue`, iterated over a queue of jobs: each dequeued job is
driven through `_transcribe_file` inside `try/except/finally`, so no
per-job failure escapes the iteration boundary (our embedding of
`_transcribe_file` is total, mirroring that every exception is caught) and
the loop proceeds to the next queued job. -/
def processQueue (jobs : List JobEnv) : List Outcome :=
  jobs.map transcribeFile

/-! ### Startup reconciler (`TranscribeWatcher._process_existing_files`) -/

/-- For every `*.wav` in the recordings directory (given by stem), enqueue
it exactly when `{transcripts_dir}/{stem}.html` does not exist.  `queue` is
the job queue contents before the scan; `self.queue.add` appends. -/
def processExistingFiles (recordings : List String) (transcriptExists : String → Bool)
    (queue : List String) : List String :=
  queue ++ recordings.filter (fun stem => !transcriptExists stem)

/-! ## Supporting lemmas -/

/-- While consecutive notifications arrive strictly within `D` of each
other, the pending timer never fires: each event only replaces it. -/
lemma debounce_foldl (D : Nat) (fileOk : Bool) :
    ∀ (es : List Nat) (t : Nat) (E : List Nat),
      List.Chain (fun a b => a ≤ b ∧ b < a + D) t es →
      es.foldl (stepEvent D fileOk) { pending := some (t + D), enqueued := E } =
        { pending := some (es.getLastD t + D), enqueued := E } := by
  intro es
  induction es with
  | nil => intro t E _; rfl
  | cons b bs ih =>
    intro t E h
    rw [List.chain_cons] at h
    obtain ⟨⟨_, hlt⟩, hch⟩ := h
    have hstep : stepEvent D fileOk { pending := some (t + D), enqueued := E } b =
        { pending := some (b + D), enqueued := E } := by
      simp [stepEvent, fireDue, Nat.not_le.mpr hlt]
    rw [List.foldl_cons, hstep, ih b E hch, List.getLastD_cons]

lemma pyRoundFrac_nonneg (n d : Int) (hn : 0 ≤ n) (hd : 0 < d) : 0 ≤ pyRoundFrac n d := by
  have hf : 0 ≤ Int.fdiv n d := Int.fdiv_nonneg hn (le_of_lt hd)
  unfold pyRoundFrac
  dsimp only
  split
  · exact hf
  · split
    · omega
    · split <;> omega

/-! ## Claims -/

/-- C1: for every path that receives `N ≥ 2` file-creation notifications,
each less than `D` seconds after the previous one, exactly one
transcription job is enqueued for that path, and it is enqueued `D`
seconds after the last notification; afterwards no live timer remains
(each new notification cancelled and replaced the pending timer). -/
theorem c1_debounce_single_job (D t : Nat) (events : List Nat)
    (hlen : 2 ≤ events.length)
    (hchain : List.Chain' (fun a b => a ≤ b ∧ b < a + D) events)
    (hlast : events.getLast? = some t) :
    (debounceRun D true events).enqueued = [t + D] ∧
    (debounceRun D true events).pending = none := by
  match events with
  | [] => simp at hlen
  | e :: es =>
    have hch : List.Chain (fun a b => a ≤ b ∧ b < a + D) e es := hchain
    have h1 : (e :: es).foldl (stepEvent D true) { pending := none, enqueued := [] } =
        { pending := some (es.getLastD e + D), enqueued := [] } := by
      rw [List.foldl_cons]
      have h0 : stepEvent D true { pending := none, enqueued := [] } e =
          { pending := some (e + D), enqueued := [] } := rfl
      rw [h0, debounce_foldl D true es e [] hch]
    have hlast2 : es.getLastD e = t := by
      rw [List.getLast?_cons] at hlast
      rw [List.getLastD_eq_getLast?]
      exact Option.some.inj hlast
    rw [debounceRun, h1, hlast2]
    simp [settleFinal]

/-- C1 witness: three notifications at times 0, 1, 2 with `D = 2`
(every gap is 1 < 2) produce exactly one job, enqueued at time `2 + 2`. -/
theorem c1_debounce_single_job_witness :
    2 ≤ ([0, 1, 2] : List Nat).length ∧
    (debounceRun 2 true [0, 1, 2]).enqueued = [2 + 2] := by
  refine ⟨by decide, ?_⟩
  refine (c1_debounce_single_job 2 2 [0, 1, 2] (by decide) ?_ (by decide)).1
  exact List.chain'_cons.mpr ⟨by omega, List.chain'_cons.mpr ⟨by omega, List.chain'_singleton 2⟩⟩

/-- C9: after a debounce timer for a path settles (`_add_to_queue`), the
pending-timer map holds no entry for that path — also in the drop case
where the file is missing or empty — so a later creation event for the
same path installs a fresh timer. -/
theorem c9_settle_removes_pending_entry (s : HandlerState) (p : String)
    (fileExists : Bool) (fileSize : Nat) :
    (addToQueue s p fileExists fileSize).pending p = none ∧
    ∀ D t : Nat,
      (onCreatedTimer D (addToQueue s p fileExists fileSize) p t).pending p = some (t + D) := by
  constructor
  · simp only [addToQueue]
    split <;> simp
  · intro D t
    simp [onCreatedTimer]

/-- C10: the `audio_duration_seconds` payload field is a non-negative
integer, and audio files smaller than the 44-byte WAV header yield 0
rather than a negative duration. -/
theorem c10_duration_nonneg (size : Nat) :
    0 ≤ audioDurationSeconds size ∧ (size < 44 → audioDurationSeconds size = 0) := by
  constructor
  · exact pyRoundFrac_nonneg _ _ (le_max_left 0 _) (by omega)
  · intro hsz
    have h0 : max 0 ((size : Int) - 44) = 0 := by
      rw [max_eq_left]
      omega
    rw [audioDurationSeconds, h0]
    decide

/-- C10 witness: a 10-byte file (smaller than the header) has duration 0,
which is non-negative. -/
theorem c10_duration_nonneg_witness :
    0 ≤ audioDurationSeconds 10 ∧ audioDurationSeconds 10 = 0 :=
  ⟨(c10_duration_nonneg 10).1, (c10_duration_nonneg 10).2 (by decide)⟩

/-- C5: for a probed channel count `C ≤ 2` the premix stage returns the
original path unchanged with no mixer invocation; for `C > 2` the mixing
filter gives each of the `C` channels weight exactly `1/C` and the weights
sum exactly to 1 (IEEE weights modelled as exact rationals). -/
theorem c5_premix_weights (stem : String) (c : Int) (mixExit : Int) (mixedExists : Bool) :
    (c ≤ 2 →
      premixAudio stem (some c) mixExit mixedExists =
        { outPath := .original stem, cmd := none, warned := false }) ∧
    (2 < c →
      ∃ cmd, (premixAudio stem (some c) mixExit mixedExists).cmd = some cmd ∧
        cmd.weights = List.replicate c.toNat ((1 : ℚ) / (c.toNat : ℚ)) ∧
        cmd.weights.length = c.toNat ∧
        cmd.weights.sum = 1) := by
  constructor
  · intro hle
    simp [premixAudio, hle]
  · intro hgt
    have hne : ¬ (c ≤ 2) := not_le.mpr hgt
    have hC : (3 : Nat) ≤ c.toNat := by omega
    have hC0 : ((c.toNat : ℚ)) ≠ 0 := Nat.cast_ne_zero.mpr (by omega)
    refine ⟨{ input := .original stem
              weights := (List.range c.toNat).map (fun _ => (1 : ℚ) / (c.toNat : ℚ))
              sampleRate := 48000, codec := "pcm_s16le", outPath := .mixed stem }, ?_, ?_, ?_, ?_⟩
    · rw [premixAudio]
      simp only [Option.getD_some]
      rw [if_neg hne]
      split <;> rfl
    · simp [List.map_const']
    · simp
    · rw [List.map_const', List.length_range, List.sum_replicate, nsmul_eq_mul]
      exact mul_one_div_cancel hC0

/-- C5 witness: a 3-channel probe yields a mixer filter whose three
weights are each `1/3` and sum to 1, while a 2-channel probe is the
identity. -/
theorem c5_premix_weights_witness :
    (premixAudio "rec" (some 2) 0 true =
      { outPath := .original "rec", cmd := none, warned := false }) ∧
    ∃ cmd, (premixAudio "rec" (some 3) 0 true).cmd = some cmd ∧
      cmd.weights = List.replicate 3 ((1 : ℚ) / 3) ∧ cmd.weights.sum = 1 := by
  constructor
  · exact (c5_premix_weights "rec" 2 0 true).1 (by decide)
  · obtain ⟨cmd, h1, h2, _, h4⟩ := (c5_premix_weights "rec" 3 0 true).2 (by decide)
    exact ⟨cmd, h1, by simpa using h2, h4⟩

/-- C2: a transcription subprocess that exits non-zero (or fails to
launch) terminates the job as `FailedLocal`, with stdout and stderr in the
error log, no webhook delivery attempted, and the pipeline loop proceeding
to the next queued job rather than aborting. -/
theorem c2_transcription_failure_isolated :
    (∀ (env : JobEnv) (code : Int) (out err : String) (rest : List JobEnv),
      env.run = .completed code out err → code ≠ 0 →
        (transcribeFile env).state = .FailedLocal ∧
        ("stdout: " ++ out) ∈ (transcribeFile env).errorLogs ∧
        ("stderr: " ++ err) ∈ (transcribeFile env).errorLogs ∧
        (transcribeFile env).webhookAttempted = false ∧
        (transcribeFile env).httpCalls = 0 ∧
        processQueue (env :: rest) = transcribeFile env :: processQueue rest) ∧
    (∀ (env : JobEnv) (msg : String) (rest : List JobEnv),
      env.run = .launchError msg →
        (transcribeFile env).state = .FailedLocal ∧
        (transcribeFile env).errorLogs = ["Failed to run noScribe: " ++ msg] ∧
        (transcribeFile env).webhookAttempted = false ∧
        (transcribeFile env).httpCalls = 0 ∧
        processQueue (env :: rest) = transcribeFile env :: processQueue rest) := by
  constructor
  · intro env code out err rest hrun hcode
    simp [transcribeFile, hrun, hcode, processQueue]
  · intro env msg rest hrun
    simp [transcribeFile, hrun, processQueue]

/-- C2 witness: a concrete job whose subprocess exits with code 1 ends
`FailedLocal` with its streams logged and no webhook attempt, and the loop
continues past it. -/
theorem c2_transcription_failure_isolated_witness :
    (transcribeFile
      { stem := "rec", probe := some 2, mixExit := 0, mixedExists := true
        run := .completed 1 "o" "e", tempExistsAtCleanup := true, unlinkOk := true
        webhook := { enabled := true, url := "http://n8n", readResult := .ok "<p>t</p>"
                     fileSize := 100, stem := "rec", tzOffsetMin := 0, nowUtcSec := 0
                     http := .ok 200 } }).state = JobState.FailedLocal := by
  exact (c2_transcription_failure_isolated.1 _ 1 "o" "e" [] rfl (by decide)).1

/-- C3 counterexample: a final HTTP status of 304 is not 2xx, yet
`raise_for_status` does not raise for it, so the job ends `Delivered`
(success logged), not `FailedDelivery` as the claim requires. -/
theorem c3_counterexample_http304 :
    (sendWebhook { enabled := true, url := "http://n8n", readResult := .ok "<p>t</p>"
                   fileSize := 100, stem := "rec", tzOffsetMin := 0, nowUtcSec := 0
                   http := .ok 304 }).state = JobState.Delivered ∧
    JobState.Delivered ≠ JobState.FailedDelivery ∧
    ¬ (200 ≤ 304 ∧ 304 < 300) := by
  refine ⟨?_, by decide, by omega⟩
  simp [sendWebhook, raisesForStatus]

/-- C3 (amended): a 4xx/5xx HTTP response — the statuses
`raise_for_status` raises for — or a transport exception makes the job
terminate as `FailedDelivery` with an error-level log entry and exactly
one HTTP call (no retry), and the pipeline loop is not aborted; a
non-error non-2xx status (1xx/3xx) is instead treated as success.  When
the webhook is disabled or its URL is unconfigured, delivery is a no-op
success: the job reaches a terminal processed state with no network
call. -/
theorem c3_amended_delivery_failure_isolated :
    (∀ (w : WebhookEnv) (html msg : String),
      w.url ≠ "" → w.readResult = .ok html → w.http = .error msg →
        (sendWebhook w).state = .FailedDelivery ∧
        (sendWebhook w).errorLogs = ["Webhook request failed: " ++ msg] ∧
        (sendWebhook w).httpCalls = 1) ∧
    (∀ (w : WebhookEnv) (html : String) (code : Nat),
      w.url ≠ "" → w.readResult = .ok html → w.http = .ok code → 400 ≤ code → code < 600 →
        (sendWebhook w).state = .FailedDelivery ∧
        (sendWebhook w).errorLogs = ["Webhook request failed: HTTP " ++ toString code] ∧
        (sendWebhook w).httpCalls = 1) ∧
    (∀ w : WebhookEnv, w.url = "" →
        sendWebhook w =
          { state := .Delivered, errorLogs := [], httpCalls := 0, payload := none }) ∧
    (∀ (env : JobEnv) (out err : String),
      env.run = .completed 0 out err → env.webhook.enabled = false →
        (transcribeFile env).state = .Delivered ∧
        (transcribeFile env).httpCalls = 0 ∧
        (transcribeFile env).webhookAttempted = false) ∧
    (∀ (env : JobEnv) (rest : List JobEnv),
        processQueue (env :: rest) = transcribeFile env :: processQueue rest) := by
  refine ⟨?_, ?_, ?_, ?_, ?_⟩
  · intro w html msg hurl hread hhttp
    simp [sendWebhook, hurl, hread, hhttp]
  · intro w html code hurl hread hhttp h4 h6
    have hr : raisesForStatus code = true := by
      simp [raisesForStatus]
      omega
    simp [sendWebhook, hurl, hread, hhttp, hr]
  · intro w hurl
    simp [sendWebhook, hurl]
  · intro env out err hrun hdis
    simp [transcribeFile, hrun, hdis]
  · intro env rest
    simp [processQueue]

/-- C3 (amended) witness: an HTTP 500 response on a configured endpoint
yields `FailedDelivery`, one error log line, a single HTTP call. -/
theorem c3_amended_delivery_failure_isolated_witness :
    (sendWebhook { enabled := true, url := "http://n8n", readResult := .ok "<p>t</p>"
                   fileSize := 100, stem := "rec", tzOffsetMin := 0, nowUtcSec := 0
                   http := .ok 500 }).state = JobState.FailedDelivery := by
  exact (c3_amended_delivery_failure_isolated.2.1 _ "<p>t</p>" 500
    (by decide) rfl rfl (by decide) (by decide)).1

/-- C4 counterexample: a job whose premix produced a temporary mixed file
and whose transcription subprocess exits with code 1 takes the early
`return` before the cleanup block, so the temporary file is NOT deleted on
that exit path — the claim's "on every exit path" fails. -/
theorem c4_counterexample_no_cleanup_on_failure :
    (transcribeFile
      { stem := "rec", probe := some 3, mixExit := 0, mixedExists := true
        run := .completed 1 "o" "e", tempExistsAtCleanup := true, unlinkOk := true
        webhook := { enabled := true, url := "http://n8n", readResult := .ok "<p>t</p>"
                     fileSize := 100, stem := "rec", tzOffsetMin := 0, nowUtcSec := 0
                     http := .ok 200 } }).premixOut.outPath = FPath.mixed "rec" ∧
    (transcribeFile
      { stem := "rec", probe := some 3, mixExit := 0, mixedExists := true
        run := .completed 1 "o" "e", tempExistsAtCleanup := true, unlinkOk := true
        webhook := { enabled := true, url := "http://n8n", readResult := .ok "<p>t</p>"
                     fileSize := 100, stem := "rec", tzOffsetMin := 0, nowUtcSec := 0
                     http := .ok 200 } }).tempCleaned = false := by
  constructor
  · simp [transcribeFile, premixAudio]
  · simp [transcribeFile]

/-- C4 (amended): the temporary mixed file is deleted only on the
successful-transcription exit path (exit code 0: deleted exactly when the
premixed path differs from the original, the file still exists and the
unlink does not raise); on the failure exit paths (non-zero exit or launch
failure) the early `return` skips the cleanup block and the temporary file
is not deleted. -/
theorem c4_amended_cleanup_only_on_success :
    (∀ (env : JobEnv) (out err : String), env.run = .completed 0 out err →
        ((transcribeFile env).tempCleaned = true ↔
          ((premixAudio env.stem env.probe env.mixExit env.mixedExists).outPath ≠
              FPath.original env.stem ∧
            env.tempExistsAtCleanup = true ∧ env.unlinkOk = true))) ∧
    (∀ (env : JobEnv) (code : Int) (out err : String),
      env.run = .completed code out err → code ≠ 0 →
        (transcribeFile env).tempCleaned = false) ∧
    (∀ (env : JobEnv) (msg : String), env.run = .launchError msg →
        (transcribeFile env).tempCleaned = false) := by
  refine ⟨?_, ?_, ?_⟩
  · intro env out err hrun
    by_cases hweb : env.webhook.enabled
    · simp only [transcribeFile, hrun]
      simp [hweb]
      tauto
    · simp only [transcribeFile, hrun]
      simp [hweb]
      tauto
  · intro env code out err hrun hcode
    simp [transcribeFile, hrun, hcode]
  · intro env msg hrun
    simp [transcribeFile, hrun]

/-- C4 (amended) witness: on a successful transcription of a premixed
3-channel file the temporary file is deleted. -/
theorem c4_amended_cleanup_only_on_success_witness :
    (transcribeFile
      { stem := "rec", probe := some 3, mixExit := 0, mixedExists := true
        run := .completed 0 "o" "e", tempExistsAtCleanup := true, unlinkOk := true
        webhook := { enabled := false, url := "", readResult := .ok ""
                     fileSize := 0, stem := "rec", tzOffsetMin := 0, nowUtcSec := 0
                     http := .ok 200 } }).tempCleaned = true := by
  refine ((c4_amended_cleanup_only_on_success.1 _ "o" "e" rfl).mpr ⟨?_, rfl, rfl⟩)
  simp [premixAudio]

/-- C6: the mixer invocation for a multi-channel input always requests
16-bit PCM (`pcm_s16le`) written to the temporary path, but its output
sample rate is the constant 48000 — independent of the input file — so it
does not preserve the sample rate of inputs recorded at any other rate
(the recorder's default is 16000 Hz), contradicting the inline comment
"Keep original sample rate". -/
theorem c6_mixer_sample_rate_hardcoded :
    (∀ (stem : String) (probe : Option Int) (mixExit : Int) (mixedExists : Bool) (cmd : MixCmd),
      (premixAudio stem probe mixExit mixedExists).cmd = some cmd →
        cmd.sampleRate = 48000 ∧ cmd.codec = "pcm_s16le" ∧
        cmd.outPath = .mixed stem ∧ cmd.input = .original stem) ∧
    ((premixAudio "rec" (some 3) 0 true).cmd.map MixCmd.sampleRate = some 48000 ∧
      (48000 : Nat) ≠ 16000) := by
  constructor
  · intro stem probe mixExit mixedExists cmd hcmd
    rw [premixAudio] at hcmd
    dsimp only at hcmd
    split at hcmd
    · simp at hcmd
    · split at hcmd <;>
        (simp only [Option.some.injEq] at hcmd
         subst hcmd
         exact ⟨rfl, rfl, rfl, rfl⟩)
  · constructor
    · simp [premixAudio]
    · decide

/-- C6 witness: the general conjunct applied to the concrete 3-channel
invocation. -/
theorem c6_mixer_sample_rate_hardcoded_witness :
    ∃ cmd : MixCmd, (premixAudio "rec" (some 3) 0 true).cmd = some cmd ∧
      cmd.sampleRate = 48000 := by
  have h1 : (premixAudio "rec" (some 3) 0 true).cmd = some
      { input := .original "rec"
        weights := (List.range 3).map (fun _ => (1 : ℚ) / ((3 : Nat) : ℚ))
        sampleRate := 48000, codec := "pcm_s16le", outPath := .mixed "rec" } := by
    simp [premixAudio]
  exact ⟨_, h1, (c6_mixer_sample_rate_hardcoded.1 "rec" (some 3) 0 true _ h1).1⟩

/-- C7: a stem of the form `YYYY-MM-DD_HH-MM-SS` is parsed as local
wall-clock time, converted to UTC and formatted as ISO-8601 with a `Z`
suffix — e.g. stem `2025-12-05_15-56-47` under a UTC-5 zone yields
`2025-12-05T20:56:47Z`; any stem the parser rejects falls back to the
current UTC time with a warning, and (the embedding being total) the
failure never propagates an error that aborts the job. -/
theorem c7_started_at (stem : String) (dt : LocalDT) (off now : Int)
    (h : parseStem stem = some dt) :
    startedAt stem off now = (formatTs (dtFromSeconds (secondsFromCivil dt - off * 60)), false) ∧
    startedAt "2025-12-05_15-56-47" (-300) 0 = ("2025-12-05T20:56:47Z", false) ∧
    (∀ (badStem : String) (off2 now2 : Int), parseStem badStem = none →
        startedAt badStem off2 now2 = (formatTs (dtFromSeconds now2), true)) ∧
    parseStem "not-a-timestamp" = none ∧
    startedAt "not-a-timestamp" (-300) 86399 = ("1970-01-01T23:59:59Z", true) := by
  refine ⟨?_, by decide, ?_, by decide, by decide⟩
  · rw [startedAt, h]
    rfl
  · intro badStem off2 now2 hbad
    rw [startedAt, hbad]

/-- C7 witness: the stem `2026-01-01_00-30-00` in a UTC+1 zone converts
across the year boundary to `2025-12-31T23:30:00Z` without fallback. -/
theorem c7_started_at_witness :
    startedAt "2026-01-01_00-30-00" 60 0 = ("2025-12-31T23:30:00Z", false) := by
  have h := (c7_started_at "2026-01-01_00-30-00"
    { year := 2026, month := 1, day := 1, hour := 0, minute := 30, second := 0 }
    60 0 (by decide)).1
  rw [h]
  decide

/-- C8 counterexample: with one recording `a` and no transcript for it,
running the reconciler twice in a row (no new files, and no processing in
between, e.g. after a crash before the queue drains) enqueues `a` twice —
a duplicate job, contradicting the claim. -/
theorem c8_counterexample_double_run_duplicates :
    processExistingFiles ["a"] (fun _ => false)
        (processExistingFiles ["a"] (fun _ => false) []) = ["a", "a"] ∧
    ¬ (processExistingFiles ["a"] (fun _ => false)
        (processExistingFiles ["a"] (fun _ => false) [])).Nodup := by
  constructor
  · decide
  · decide

/-- C8 (amended): the startup reconciler enqueues an audio file if and
only if no sibling transcript exists; and a second run enqueues nothing —
hence no duplicates — provided transcripts only appeared (never vanished)
in between and every file the first run enqueued has its transcript by the
second run (as when the first run's jobs completed).  Back-to-back runs
without intervening processing enqueue each unprocessed file once per
run. -/
theorem c8_amended_reconciler :
    (∀ (recordings : List String) (tEx : String → Bool) (queue : List String) (f : String),
        f ∈ processExistingFiles recordings tEx queue ↔
          f ∈ queue ∨ (f ∈ recordings ∧ tEx f = false)) ∧
    (∀ (recordings : List String) (tEx1 tEx2 : String → Bool) (queue : List String),
        (∀ f, f ∈ recordings → tEx1 f = false → tEx2 f = true) →
        (∀ f, f ∈ recordings → tEx1 f = true → tEx2 f = true) →
        processExistingFiles recordings tEx2 (processExistingFiles recordings tEx1 queue) =
          processExistingFiles recordings tEx1 queue) := by
  constructor
  · intro recordings tEx queue f
    simp [processExistingFiles, List.mem_filter]
  · intro recordings tEx1 tEx2 queue h1 h2
    have hnil : recordings.filter (fun stem => !tEx2 stem) = [] := by
      rw [List.filter_eq_nil_iff]
      intro f hf
      rcases Bool.eq_false_or_eq_true (tEx1 f) with h | h
      · simp [h2 f hf h]
      · simp [h1 f hf h]
    rw [processExistingFiles, processExistingFiles, hnil, List.append_nil]

/-- C8 (amended) witness: one unprocessed recording; after its transcript
appears, a second reconciler run adds nothing to the queue. -/
theorem c8_amended_reconciler_witness :
    processExistingFiles ["a"] (fun _ => true)
        (processExistingFiles ["a"] (fun _ => false) []) =
      processExistingFiles ["a"] (fun _ => false) [] :=
  c8_amended_reconciler.2 ["a"] (fun _ => false) (fun _ => true) []
    (fun _ _ _ => rfl) (fun _ _ _ => rfl)

end MeetingMemory
